import Mathlib

/-!
Shallow embedding of the job-orchestration backend: the job-type dispatcher
(`backend/tasks/execution/base_executor.py`), the job template manager
(`backend/job_template_manager.py` over the repository pattern of
`backend/repositories/base.py`), and the Celery control-plane endpoints
(`backend/routers/jobs/celery_status.py`, `celery_cleanup.py`,
`celery_settings.py`).

Python dicts with a fixed key set are translated to structures; a key that may
be absent becomes an `Option` field with `none` for "key absent".  Fallible
operations (exceptions, HTTP error responses) are translated to `Except`.
External mutable stores (the relational template table, the Redis broker) are
threaded explicitly as state values.
-/

namespace AppModel

/-! ## Job dispatcher (`backend/tasks/execution/base_executor.py`) -/

/-- The result dict returned by job executors and by `execute_job_type`.
A field of value `none` models a key that is absent from the Python dict;
for keys whose value may itself be `None`, `some none` models a present key
holding `None`. -/
structure ExecResult where
  success : Bool
  error : Option String
  message : Option String
  schedule_id : Option (Option Int)
  job_run_id : Option (Option Int)
  job_parameters : Option (List (String × String))
  target_devices : Option (List String)
deriving Repr, DecidableEq

/-- The shape of a job executor: the keyword arguments of the executor call in
`execute_job_type`, in source order (`schedule_id`, `credential_id`,
`job_parameters`, `target_devices`, `task_context`, `template`, `job_run_id`).
The Celery task context is an opaque value of an arbitrary type `Ctx`. -/
def ExecutorFn (Ctx : Type) : Type :=
  Option Int → Option Int → Option (List (String × String)) → Option (List String) →
    Ctx → Option (List (String × String)) → Option Int → ExecResult

/-- `execute_example`: the example executor (the `time.sleep` and logging are
effect-free with respect to the returned dict and are dropped). -/
def execute_example {Ctx : Type} (schedule_id _credential_id : Option Int)
    (job_parameters : Option (List (String × String)))
    (target_devices : Option (List String)) (_task_context : Ctx)
    (_template : Option (List (String × String))) (job_run_id : Option Int) : ExecResult :=
  { success := true
    error := none
    message := some "Example job completed successfully"
    schedule_id := some schedule_id
    job_run_id := some job_run_id
    job_parameters := some (job_parameters.getD [])
    target_devices := some (target_devices.getD []) }

/-- The `job_executors` dispatch table built inside `execute_job_type`. -/
def job_executors (Ctx : Type) : List (String × ExecutorFn Ctx) :=
  [("example", fun a b c d e f g => execute_example a b c d e f g)]

/-- `execute_job_type`: look the job type up in the dispatch table; on a miss
return the structured failure dict, otherwise return the executor result. -/
def execute_job_type {Ctx : Type} (job_type : String) (schedule_id credential_id : Option Int)
    (job_parameters : Option (List (String × String)))
    (target_devices : Option (List String)) (task_context : Ctx)
    (template : Option (List (String × String))) (job_run_id : Option Int) : ExecResult :=
  match (job_executors Ctx).lookup job_type with
  | none =>
    { success := false
      error := some ("Unknown job type: " ++ job_type)
      message := none
      schedule_id := none
      job_run_id := none
      job_parameters := none
      target_devices := none }
  | some ex =>
    ex schedule_id credential_id job_parameters target_devices task_context template job_run_id

/-! ## Job template manager (`backend/job_template_manager.py`) -/

/-- One stored row of the job template table. -/
structure JobTemplate where
  id : Nat
  name : String
  job_type : String
  description : Option String
  is_global : Bool
  user_id : Option Nat
  created_by : String
deriving Repr, DecidableEq

/-- The repository-backed template table together with its autoincrement
counter for assigning fresh ids. -/
structure TemplateStore where
  templates : List JobTemplate
  next_id : Nat
deriving Repr, DecidableEq

/-- The typed failure raised by the manager (`raise ValueError(...)` on a
duplicate name). -/
inductive TemplateError where
  | duplicateName (name : String)
deriving Repr, DecidableEq

/-- Modelled from the spec: `JobTemplateRepository.check_name_exists` lives in
`repositories/jobs/job_template_repository.py`, which is not under `src/`.
Per the spec, name uniqueness is scoped: global templates (owner `none`) form
one uniqueness namespace and each owner's private templates another, so the
check reports whether a template with this name exists in the scope identified
by `user_id` (`none` = the global scope), optionally excluding one id (the row
being updated). -/
def check_name_exists (s : TemplateStore) (name : String) (user_id : Option Nat)
    (exclude_id : Option Nat) : Bool :=
  s.templates.any fun t =>
    t.name == name && t.user_id == user_id &&
      (match exclude_id with
       | none => true
       | some e => !(t.id == e))

/-- `BaseRepository.create` specialised to the template table: insert a fresh
row and return it. -/
def repoCreate (s : TemplateStore) (name job_type : String) (description : Option String)
    (is_global : Bool) (user_id : Option Nat) (created_by : String) :
    TemplateStore × JobTemplate :=
  let t : JobTemplate :=
    { id := s.next_id
      name := name
      job_type := job_type
      description := description
      is_global := is_global
      user_id := user_id
      created_by := created_by }
  ({ templates := s.templates ++ [t], next_id := s.next_id + 1 }, t)

/-- `BaseRepository.get_by_id` specialised to the template table. -/
def repoGetById (s : TemplateStore) (id : Nat) : Option JobTemplate :=
  s.templates.find? fun t => t.id == id

/-- `create_job_template`: duplicate-name check in the target scope
(`user_id if not is_global else None`), then insert. -/
def create_job_template (s : TemplateStore) (name job_type : String) (user_id : Nat)
    (created_by : String) (description : Option String) (is_global : Bool) :
    Except TemplateError (TemplateStore × JobTemplate) :=
  if check_name_exists s name (if is_global then none else some user_id) none then
    Except.error (TemplateError.duplicateName name)
  else
    Except.ok (repoCreate s name job_type description is_global
      (if is_global then none else some user_id) created_by)

/-- `get_job_template`: lookup by id, `none` for not found. -/
def get_job_template (s : TemplateStore) (template_id : Nat) : Option JobTemplate :=
  repoGetById s template_id

/-- The `update_data` keyword dict passed to `BaseRepository.update`.  A field
of value `none` models a key absent from the dict; `user_id` may be present
holding `None` (`some none`), which clears the stored owner. -/
structure UpdateData where
  name : Option String
  description : Option String
  is_global : Option Bool
  user_id : Option (Option Nat)
deriving Repr, DecidableEq

/-- `if not update_data:` — the dict is empty. -/
def UpdateData.isEmpty (u : UpdateData) : Bool :=
  u.name.isNone && u.description.isNone && u.is_global.isNone && u.user_id.isNone

/-- `BaseRepository.update`'s `setattr` loop: overwrite exactly the supplied
fields of a row. -/
def applyUpdate (u : UpdateData) (t : JobTemplate) : JobTemplate :=
  { t with
    name := u.name.getD t.name
    description :=
      match u.description with
      | none => t.description
      | some d => some d
    is_global := u.is_global.getD t.is_global
    user_id := u.user_id.getD t.user_id }

/-- `BaseRepository.update` specialised to the template table: apply the
update dict to the row with the given id, returning the updated row, or
`none` when the id is absent (the store is then unchanged). -/
def repoUpdate (s : TemplateStore) (id : Nat) (u : UpdateData) :
    TemplateStore × Option JobTemplate :=
  match repoGetById s id with
  | none => (s, none)
  | some t =>
    let t2 := applyUpdate u t
    ({ s with templates := s.templates.map fun x => if x.id == id then t2 else x }, some t2)

/-- The `update_data` dict built by `update_job_template`: `user_id` is set to
`None` when `is_global` flips to true, to the caller-supplied owner when it
flips to false and an owner was supplied, and is otherwise left absent. -/
def buildUpdateData (name description : Option String) (is_global : Option Bool)
    (user_id : Option Nat) : UpdateData :=
  { name := name
    description := description
    is_global := is_global
    user_id :=
      match is_global with
      | none => none
      | some true => some none
      | some false =>
        match user_id with
        | none => none
        | some u => some (some u) }

/-- The tail of `update_job_template` after the duplicate check: build the
update dict; if it is empty return the current state without writing,
otherwise write through the repository. -/
def performUpdate (s : TemplateStore) (template_id : Nat) (name description : Option String)
    (is_global : Option Bool) (user_id : Option Nat) : TemplateStore × Option JobTemplate :=
  let u := buildUpdateData name description is_global user_id
  if u.isEmpty then (s, get_job_template s template_id)
  else repoUpdate s template_id u

/-- `update_job_template`: when `name` is supplied, re-check name uniqueness
against the scope identified by the caller-supplied `user_id` (excluding the
row being updated) before performing the update. -/
def update_job_template (s : TemplateStore) (template_id : Nat) (name : Option String)
    (description : Option String) (is_global : Option Bool) (user_id : Option Nat) :
    Except TemplateError (TemplateStore × Option JobTemplate) :=
  match name with
  | some n =>
    if check_name_exists s n user_id (some template_id) then
      Except.error (TemplateError.duplicateName n)
    else
      Except.ok (performUpdate s template_id (some n) description is_global user_id)
  | none => Except.ok (performUpdate s template_id none description is_global user_id)

/-! ## Queue purging (`backend/routers/jobs/celery_status.py`, `purge_all_queues`) -/

/-- Broker state seen by queue purging: per-queue pending message counts
(an association list keyed by queue name), plus the set of queues whose
channel raises on purge (modelling transport errors for the per-queue
`except` branch). -/
structure Broker where
  pending : List (String × Nat)
  failing : List String
deriving Repr, DecidableEq

/-- Overwrite one queue's pending count in the association list (used to model
draining a queue). -/
def setPending : List (String × Nat) → String → Nat → List (String × Nat)
  | [], _, _ => []
  | (k, v) :: rest, q, n =>
    if k = q then (k, n) :: rest else (k, v) :: setPending rest q n

/-- `Queue(...)(conn.channel()).purge()`: atomically drain one queue and
return the number of messages removed, or raise when the channel fails. -/
def brokerPurge (b : Broker) (q : String) : Except String (Nat × Broker) :=
  if b.failing.contains q then Except.error ("channel error on queue " ++ q)
  else
    Except.ok ((b.pending.lookup q).getD 0,
      { b with pending := setPending b.pending q 0 })

/-- One entry of the `purged_queues` result list: `error = none` on a
successful purge, `error = some e` when that queue's purge raised. -/
structure QueuePurgeEntry where
  queue : String
  purged_tasks : Nat
  error : Option String
deriving Repr, DecidableEq

/-- The response dict of `purge_all_queues`. -/
structure PurgeAllResult where
  success : Bool
  total_purged : Nat
  queues : List QueuePurgeEntry
deriving Repr, DecidableEq

/-- The per-queue `for` loop of `purge_all_queues`: each queue is purged in
its own `try`/`except`; a failure is recorded as a per-queue entry with
`purged_tasks = 0` and the error message, and the loop continues.  Returns
the entry list, the accumulated total, and the broker state after the loop. -/
def purgeLoop : Broker → List String → List QueuePurgeEntry × Nat × Broker
  | b, [] => ([], 0, b)
  | b, q :: rest =>
    match brokerPurge b q with
    | Except.error e =>
      let r := purgeLoop b rest
      ({ queue := q, purged_tasks := 0, error := some e } :: r.1, r.2.1, r.2.2)
    | Except.ok (n, b1) =>
      let r := purgeLoop b1 rest
      ({ queue := q, purged_tasks := n, error := none } :: r.1, n + r.2.1, r.2.2)

/-- `purge_all_queues` over the configured queue names (the keys of
`celery_app.conf.task_queues`). -/
def purge_all_queues (b : Broker) (queues : List String) : PurgeAllResult × Broker :=
  let r := purgeLoop b queues
  ({ success := true, total_purged := r.2.1, queues := r.1 }, r.2.2)

/-- The per-queue result entry that `purge_all_queues` produces for queue `q`
when every queue is purged against the initial broker state `b` (what
independence of the per-queue purges amounts to). -/
def purgeSpecEntry (b : Broker) (q : String) : QueuePurgeEntry :=
  if b.failing.contains q then
    { queue := q, purged_tasks := 0, error := some ("channel error on queue " ++ q) }
  else
    { queue := q, purged_tasks := (b.pending.lookup q).getD 0, error := none }

/-! ## Beat and overall status (`backend/routers/jobs/celery_status.py`) -/

/-- The shared Redis broker/store as seen by the status endpoints: the set of
present keys, and whether the connection is reachable (an unreachable store
makes every Redis call raise). -/
structure RedisState where
  keys : List String
  reachable : Bool
deriving Repr, DecidableEq

/-- The Beat mutual-exclusion lock key. -/
def beatLockKey : String := "cockpit-ng:beat::lock"

/-- The Beat persisted-schedule key. -/
def beatScheduleKey : String := "cockpit-ng:beat::schedule"

/-- `r.exists(key)`: key presence, raising when the store is unreachable. -/
def redisExists (r : RedisState) (k : String) : Except String Bool :=
  if r.reachable then Except.ok (r.keys.contains k)
  else Except.error "connection refused"

/-- `r.ping()`: connectivity probe, raising when the store is unreachable. -/
def redisPing (r : RedisState) : Except String Bool :=
  if r.reachable then Except.ok true else Except.error "connection refused"

/-- The response dict of the `beat_status` endpoint. -/
structure BeatStatus where
  success : Bool
  beat_running : Bool
  message : String
deriving Repr, DecidableEq

/-- `beat_status`: Beat is reported running iff the lock key or the persisted
schedule key is present. -/
def beat_status (r : RedisState) : Except String BeatStatus :=
  match redisExists r beatLockKey with
  | Except.error e => Except.error e
  | Except.ok lock_exists =>
    match redisExists r beatScheduleKey with
    | Except.error e => Except.error e
    | Except.ok schedule_exists =>
      let beat_running := lock_exists || schedule_exists
      Except.ok
        { success := true
          beat_running := beat_running
          message := if beat_running then "Beat is running" else "Beat not detected" }

/-- The `status` dict of the `celery_status` endpoint. -/
structure CeleryStatus where
  success : Bool
  redis_connected : Bool
  worker_count : Nat
  active_tasks : Nat
  beat_running : Bool
deriving Repr, DecidableEq

/-- `celery_status` (overall status): worker count from `inspect.stats()`,
summed active task count from `inspect.active()`, the Redis ping probe and
the Beat lock-key check each in their own `try`/`except` that degrades to
`false`. -/
def celery_status (r : RedisState) (stats : List (String × Nat))
    (active : List (String × List String)) : CeleryStatus :=
  let worker_count := stats.length
  let task_count := (active.map fun p => p.2.length).sum
  let redis_connected :=
    match redisPing r with
    | Except.ok _ => true
    | Except.error _ => false
  let beat_running :=
    match redisExists r beatLockKey with
    | Except.ok b => b
    | Except.error _ => false
  { success := true
    redis_connected := redis_connected
    worker_count := worker_count
    active_tasks := task_count
    beat_running := beat_running }

/-! ## Configuration snapshot (`backend/routers/jobs/celery_status.py`, `get_celery_config`) -/

/-- The environment and Celery configuration read by `get_celery_config`. -/
structure CeleryEnv where
  redis_host : String
  redis_port : String
  redis_password : String
  celery_max_workers : Nat
  worker_prefetch_multiplier : Nat
  worker_max_tasks_per_child : Nat
  task_time_limit : Nat
  task_serializer : String
  task_track_started : Bool
  result_expires : Nat
  result_serializer : String
  beat_scheduler : String
  beat_schedule_count : Nat
  timezone : String
  enable_utc : Bool
deriving Repr, DecidableEq

/-- The `redis` section of the configuration snapshot: `has_password` is the
truthiness of the configured password, never its value. -/
structure RedisConfigView where
  host : String
  port : String
  has_password : Bool
  database : String
deriving Repr, DecidableEq

/-- The `config` dict returned by `get_celery_config`. -/
structure CeleryConfigView where
  success : Bool
  redis : RedisConfigView
  max_concurrency : Nat
  prefetch_multiplier : Nat
  max_tasks_per_child : Nat
  time_limit : Nat
  task_serializer : String
  track_started : Bool
  result_expires : Nat
  result_serializer : String
  beat_scheduler : String
  beat_schedule_count : Nat
  timezone : String
  enable_utc : Bool
deriving Repr, DecidableEq

/-- `get_celery_config`: read-only projection of the effective configuration;
the credential itself is projected to `has_password = bool(redis_password)`. -/
def get_celery_config (e : CeleryEnv) : CeleryConfigView :=
  { success := true
    redis :=
      { host := e.redis_host
        port := e.redis_port
        has_password := e.redis_password != ""
        database := "0" }
    max_concurrency := e.celery_max_workers
    prefetch_multiplier := e.worker_prefetch_multiplier
    max_tasks_per_child := e.worker_max_tasks_per_child
    time_limit := e.task_time_limit
    task_serializer := e.task_serializer
    track_started := e.task_track_started
    result_expires := e.result_expires
    result_serializer := e.result_serializer
    beat_scheduler := e.beat_scheduler
    beat_schedule_count := e.beat_schedule_count
    timezone := e.timezone
    enable_utc := e.enable_utc }

/-! ## Cleanup stats (`backend/routers/jobs/celery_cleanup.py`, `get_cleanup_stats`) -/

/-- The `stats` dict returned by `get_cleanup_stats`.  Time is modelled as
seconds (`Int`); `cutoff_time = now - cleanup_age_hours hours`. -/
structure CleanupStats where
  success : Bool
  cleanup_age_hours : Nat
  cutoff_time : Int
  total_result_keys : Nat
deriving Repr, DecidableEq

/-- The key prefix matched by the `celery-task-meta-*` scan pattern. -/
def resultKeyPattern : String := "celery-task-meta-"

/-- `redis.scan_iter("<prefix>*")`: the matching keys; the store itself is
returned unchanged because a scan is a pure read. -/
def redisScan (store : List String) (pre : String) : List String × List String :=
  (store.filter fun k => pre.isPrefixOf k, store)

/-- `get_cleanup_stats`: read the retention setting (default 24 hours),
compute the cutoff, count the stored result keys by pattern scan, and return
the stats together with the (unchanged) store. -/
def get_cleanup_stats (celery_settings : List (String × Nat)) (now : Int)
    (store : List String) : CleanupStats × List String :=
  let cleanup_age_hours := (celery_settings.lookup "cleanup_age_hours").getD 24
  let cutoff_time := now - 3600 * (cleanup_age_hours : Int)
  let scanned := redisScan store resultKeyPattern
  ({ success := true
     cleanup_age_hours := cleanup_age_hours
     cutoff_time := cutoff_time
     total_result_keys := scanned.1.length }, scanned.2)

/-! ## Celery settings update (`backend/routers/jobs/celery_settings.py`) -/

/-- One configured queue (the `CeleryQueue` pydantic model). -/
structure CeleryQueue where
  name : String
  description : String
  built_in : Bool
deriving Repr, DecidableEq

/-- The stored Celery settings (the fields managed by the settings
endpoints). -/
structure CelerySettings where
  max_workers : Nat
  cleanup_enabled : Bool
  cleanup_interval_hours : Nat
  cleanup_age_hours : Nat
  result_expires_hours : Nat
  queues : List CeleryQueue
deriving Repr, DecidableEq

/-- The `CelerySettingsRequest` pydantic model; a field of value `none`
models a key excluded by `model_dump(exclude_unset=True)`. -/
structure CelerySettingsRequest where
  max_workers : Option Nat
  cleanup_enabled : Option Bool
  cleanup_interval_hours : Option Nat
  cleanup_age_hours : Option Nat
  result_expires_hours : Option Nat
  queues : Option (List CeleryQueue)
deriving Repr, DecidableEq

/-- The four hardcoded built-in queue names. -/
def builtinQueueNames : List String := ["default", "backup", "network", "heavy"]

/-- `built_in_queue_names - updated_queue_names`: the built-in queues missing
from a submitted queue list (in the fixed built-in order; the Python set
difference carries the same elements in unspecified order). -/
def missingBuiltins (qs : List CeleryQueue) : List String :=
  builtinQueueNames.filter fun b => !((qs.map CeleryQueue.name).contains b)

/-- The HTTP 400 detail string naming every missing built-in queue. -/
def mkMissingDetail (missing : List String) : String :=
  "Cannot remove built-in queues: " ++ String.intercalate ", " missing ++
    ". Built-in queues (default, backup, network, heavy) are required."

/-- The normalisation loop over submitted queues: a queue bearing a built-in
name is forced to `built_in = true`; other queues keep their flag (the pydantic
model defaults it to `false`). -/
def normalizeQueue (q : CeleryQueue) : CeleryQueue :=
  if builtinQueueNames.contains q.name then { q with built_in := true } else q

/-- `merged = {**current, **updates}`: the stored settings overridden by the
supplied fields, with the queue list normalised. -/
def applyRequest (cur : CelerySettings) (req : CelerySettingsRequest) : CelerySettings :=
  { max_workers := req.max_workers.getD cur.max_workers
    cleanup_enabled := req.cleanup_enabled.getD cur.cleanup_enabled
    cleanup_interval_hours := req.cleanup_interval_hours.getD cur.cleanup_interval_hours
    cleanup_age_hours := req.cleanup_age_hours.getD cur.cleanup_age_hours
    result_expires_hours := req.result_expires_hours.getD cur.result_expires_hours
    queues :=
      match req.queues with
      | none => cur.queues
      | some qs => qs.map normalizeQueue }

/-- `update_celery_settings`: when a queue list is supplied, reject the update
with an HTTP 400 naming the missing built-in queues if any built-in is absent
(leaving the stored settings untouched); otherwise merge and store.  Returns
the endpoint outcome together with the post-call stored settings. -/
def update_celery_settings (current : CelerySettings) (req : CelerySettingsRequest) :
    Except String CelerySettings × CelerySettings :=
  match req.queues with
  | some qs =>
    if missingBuiltins qs = [] then
      let merged := applyRequest current req
      (Except.ok merged, merged)
    else
      (Except.error (mkMissingDetail (missingBuiltins qs)), current)
  | none =>
    let merged := applyRequest current req
    (Except.ok merged, merged)

/-! ## Theorems -/

/-- C1: dispatching a job type absent from the registered executor table
returns the structured failure dict `success = false`,
`error = "Unknown job type: <type>"` for every choice of the other arguments
(totality of `execute_job_type` models that it never raises), while a
registered job type gets its executor's result. -/
theorem execute_job_type_contract {Ctx : Type} (job_type : String)
    (sid cid : Option Int) (jp : Option (List (String × String)))
    (td : Option (List String)) (ctx : Ctx)
    (tpl : Option (List (String × String))) (jr : Option Int) :
    ((∀ p ∈ job_executors Ctx, p.1 ≠ job_type) →
      execute_job_type job_type sid cid jp td ctx tpl jr =
        { success := false
          error := some ("Unknown job type: " ++ job_type)
          message := none
          schedule_id := none
          job_run_id := none
          job_parameters := none
          target_devices := none }) ∧
    (∀ ex : ExecutorFn Ctx, (job_type, ex) ∈ job_executors Ctx →
      execute_job_type job_type sid cid jp td ctx tpl jr =
        ex sid cid jp td ctx tpl jr) := by
  constructor
  · intro h
    by_cases he : job_type = "example"
    · exact absurd he.symm
        (h ("example", fun a b c d e f g => execute_example a b c d e f g)
          (by simp [job_executors]))
    · have hb : (job_type == "example") = false := by
        simpa using he
      simp [execute_job_type, job_executors, List.lookup, hb]
  · intro ex hex
    simp [job_executors] at hex
    obtain ⟨h1, h2⟩ := hex
    subst h1
    subst h2
    rfl

/-- C1 witness: the unregistered job type "bogus" yields the failure dict. -/
theorem execute_job_type_contract_witness :
    execute_job_type "bogus" none none none none () none none =
      { success := false
        error := some ("Unknown job type: " ++ "bogus")
        message := none
        schedule_id := none
        job_run_id := none
        job_parameters := none
        target_devices := none } := by
  have h := @execute_job_type_contract Unit "bogus" none none none none () none none
  exact h.1 (by decide)

/-- C10: a template update with none of `name`, `description`, `is_global`
supplied performs no write: the store is returned unchanged and the result is
the template's current state (`none` when the id does not exist). -/
theorem update_job_template_noop (s : TemplateStore) (tid : Nat) (u : Option Nat) :
    update_job_template s tid none none none u =
      Except.ok (s, get_job_template s tid) := rfl

/-- C2: a successful create returns the new template carrying the requested
scope; a second create of the same name in the same target scope then fails
with the duplicate-name error (for the global scope this holds for any
requesting user); and the same name still succeeds in the opposite scope
provided it was free there beforehand. -/
theorem create_job_template_scoped_uniqueness
    (s : TemplateStore) (nm jt cb : String) (d : Option String) (u1 u2 : Nat) (ig : Bool)
    (s2 : TemplateStore) (t : JobTemplate)
    (hok : create_job_template s nm jt u1 cb d ig = Except.ok (s2, t)) :
    t.name = nm ∧ t.is_global = ig ∧ t.user_id = (if ig then none else some u1) ∧
    create_job_template s2 nm jt (if ig then u2 else u1) cb d ig =
      Except.error (TemplateError.duplicateName nm) ∧
    (check_name_exists s nm (if ig then some u2 else none) none = false →
      (create_job_template s2 nm jt u2 cb d (!ig)).isOk = true) := by
  have hchk : check_name_exists s nm (if ig then none else some u1) none = false := by
    by_contra hc
    rw [Bool.not_eq_false] at hc
    simp [create_job_template, hc] at hok
  have hok2 : repoCreate s nm jt d ig (if ig then none else some u1) cb = (s2, t) := by
    simpa [create_job_template, hchk] using hok
  have hs2 : s2 =
      { templates := s.templates ++
          [{ id := s.next_id, name := nm, job_type := jt, description := d,
             is_global := ig, user_id := if ig then none else some u1, created_by := cb }],
        next_id := s.next_id + 1 } := by
    have h1 := congrArg Prod.fst hok2
    simpa [repoCreate] using h1.symm
  have ht : t =
      { id := s.next_id, name := nm, job_type := jt, description := d,
        is_global := ig, user_id := if ig then none else some u1, created_by := cb } := by
    have h1 := congrArg Prod.snd hok2
    simpa [repoCreate] using h1.symm
  subst hs2
  subst ht
  refine ⟨by simp, by simp, by simp, ?_, ?_⟩
  · cases ig <;>
      simp [create_job_template, check_name_exists, List.any_append]
  · intro hfree
    cases ig
    · simp [check_name_exists] at hfree
      have hno : ¬ ∃ x ∈ s.templates, x.name = nm ∧ x.user_id = none := by
        rintro ⟨x, hx, h1, h2⟩
        exact hfree x hx h1 h2
      simp [create_job_template, check_name_exists, List.any_append, hno, Except.isOk, Except.toBool]
    · simp [check_name_exists] at hfree
      have hno : ¬ ∃ x ∈ s.templates, x.name = nm ∧ x.user_id = some u2 := by
        rintro ⟨x, hx, h1, h2⟩
        exact hfree x hx h1 h2
      simp [create_job_template, check_name_exists, List.any_append, hno, Except.isOk, Except.toBool]

/-- C2 witness: concrete replay; the second create of "x" in user 5's scope
fails on the store produced by the first create. -/
theorem create_job_template_scoped_uniqueness_witness :
    create_job_template
        { templates := [{ id := 1, name := "x", job_type := "example", description := none,
                          is_global := false, user_id := some 5, created_by := "alice" }],
          next_id := 2 }
        "x" "example" 5 "alice" none false =
      Except.error (TemplateError.duplicateName "x") := by
  have h := create_job_template_scoped_uniqueness
      { templates := [], next_id := 1 } "x" "example" "alice" none 5 9 false
      { templates := [{ id := 1, name := "x", job_type := "example", description := none,
                        is_global := false, user_id := some 5, created_by := "alice" }],
        next_id := 2 }
      { id := 1, name := "x", job_type := "example", description := none,
        is_global := false, user_id := some 5, created_by := "alice" }
      (by rfl)
  exact h.2.2.2.1

/-- C5 counterexample: in a store holding a global template "x" (id 1) and a
private template "y" of user 5 (id 2), updating template 2 to name "x" with
`is_global = true` succeeds even though "x" is already taken in the target
(global) scope — the uniqueness re-check ran against the caller-supplied
owner scope (user 5) instead of the target scope — leaving two global
templates named "x". -/
theorem update_job_template_target_scope_cex :
    (update_job_template
        { templates :=
            [{ id := 1, name := "x", job_type := "example", description := none,
               is_global := true, user_id := none, created_by := "alice" },
             { id := 2, name := "y", job_type := "example", description := none,
               is_global := false, user_id := some 5, created_by := "bob" }],
          next_id := 3 } 2 (some "x") none (some true) (some 5)).isOk = true ∧
    check_name_exists
        { templates :=
            [{ id := 1, name := "x", job_type := "example", description := none,
               is_global := true, user_id := none, created_by := "alice" },
             { id := 2, name := "y", job_type := "example", description := none,
               is_global := false, user_id := some 5, created_by := "bob" }],
          next_id := 3 } "x" none (some 2) = true ∧
    ((update_job_template
        { templates :=
            [{ id := 1, name := "x", job_type := "example", description := none,
               is_global := true, user_id := none, created_by := "alice" },
             { id := 2, name := "y", job_type := "example", description := none,
               is_global := false, user_id := some 5, created_by := "bob" }],
          next_id := 3 } 2 (some "x") none (some true) (some 5)).toOption.map
      fun p => (p.1.templates.filter fun t => t.name == "x" && t.user_id == none).length) =
        some 2 := by
  refine ⟨rfl, rfl, rfl⟩

/-- C5 amended: the update re-checks name uniqueness iff `name` is supplied,
and the re-check runs against the scope identified by the caller-supplied
`user_id` argument (that owner's private scope when supplied, the global
scope when absent), regardless of the new `is_global` value; when `is_global`
flips to true the stored owner is cleared, and when it flips to false with a
supplied owner that owner becomes the new scope. -/
theorem update_job_template_recheck (s : TemplateStore) (tid : Nat) (n : String)
    (d : Option String) (g : Option Bool) (u : Option Nat) :
    ((update_job_template s tid (some n) d g u).isOk = true ↔
      check_name_exists s n u (some tid) = false) ∧
    (update_job_template s tid none d g u).isOk = true ∧
    (∀ s2 t, update_job_template s tid (some n) d (some true) u =
        Except.ok (s2, some t) → t.user_id = none) ∧
    (∀ s2 t uu, update_job_template s tid (some n) d (some false) (some uu) =
        Except.ok (s2, some t) → t.user_id = some uu) := by
  refine ⟨?_, ?_, ?_, ?_⟩
  · cases hc : check_name_exists s n u (some tid) <;>
      simp [update_job_template, hc, Except.isOk, Except.toBool]
  · simp [update_job_template, Except.isOk, Except.toBool]
  · intro s2 t h
    cases hc : check_name_exists s n u (some tid)
    · simp only [update_job_template, hc, if_neg Bool.false_ne_true, Except.ok.injEq] at h
      rcases hfind : repoGetById s tid with _ | t0
      · simp [performUpdate, UpdateData.isEmpty, buildUpdateData, repoUpdate, hfind] at h
      · simp [performUpdate, UpdateData.isEmpty, buildUpdateData, repoUpdate, hfind] at h
        rw [← h.2]
        rfl
    · simp [update_job_template, hc] at h
  · intro s2 t uu h
    cases hc : check_name_exists s n (some uu) (some tid)
    · simp only [update_job_template, hc, if_neg Bool.false_ne_true, Except.ok.injEq] at h
      rcases hfind : repoGetById s tid with _ | t0
      · simp [performUpdate, UpdateData.isEmpty, buildUpdateData, repoUpdate, hfind] at h
      · simp [performUpdate, UpdateData.isEmpty, buildUpdateData, repoUpdate, hfind] at h
        rw [← h.2]
        rfl
    · simp [update_job_template, hc] at h

/-- C5 amended witness: on a store holding only the global template "x"
(id 1), renaming template 1 to "z" with no owner supplied passes the
global-scope re-check and succeeds. -/
theorem update_job_template_recheck_witness :
    (update_job_template
        { templates :=
            [{ id := 1, name := "x", job_type := "example", description := none,
               is_global := true, user_id := none, created_by := "alice" }],
          next_id := 2 } 1 (some "z") none none none).isOk = true :=
  (update_job_template_recheck
      { templates :=
          [{ id := 1, name := "x", job_type := "example", description := none,
             is_global := true, user_id := none, created_by := "alice" }],
        next_id := 2 } 1 "z" none none none).1.mpr (by decide)

/-- Overwriting one queue's pending count leaves every other queue's lookup
unchanged. -/
theorem lookup_setPending_ne (p : List (String × Nat)) (q k : String) (n : Nat)
    (h : k ≠ q) : (setPending p q n).lookup k = p.lookup k := by
  induction p with
  | nil => rfl
  | cons hd tl ih =>
    obtain ⟨k0, v0⟩ := hd
    by_cases he : k0 = q
    · subst he
      have hk : (k == k0) = false := by simpa using h
      simp [setPending, List.lookup, hk]
    · by_cases hk : (k == k0) = true
      · simp [setPending, he, List.lookup, hk]
      · simp only [Bool.not_eq_true] at hk
        simp [setPending, he, List.lookup, hk, ih]

/-- After draining a queue its pending count reads back as zero (also when the
queue was not listed at all). -/
theorem lookup_setPending_self_getD (p : List (String × Nat)) (q : String) :
    ((setPending p q 0).lookup q).getD 0 = 0 := by
  induction p with
  | nil => rfl
  | cons hd tl ih =>
    obtain ⟨k0, v0⟩ := hd
    by_cases he : k0 = q
    · subst he
      simp [setPending, List.lookup]
    · have hk : (q == k0) = false := by
        simp
        intro hh
        exact he hh.symm
      simp [setPending, he, List.lookup, hk, ih]

/-- The purge loop never changes which queues are failing. -/
theorem purgeLoop_failing (qs : List String) (b : Broker) :
    (purgeLoop b qs).2.2.failing = b.failing := by
  induction qs generalizing b with
  | nil => rfl
  | cons q rest ih =>
    by_cases hf : q ∈ b.failing
    · simp [purgeLoop, brokerPurge, hf, ih]
    · simp [purgeLoop, brokerPurge, hf, ih]

/-- The purge loop leaves the pending count of any queue outside the purged
list untouched. -/
theorem purgeLoop_lookup_not_mem (qs : List String) (b : Broker) (k : String)
    (hk : k ∉ qs) : (purgeLoop b qs).2.2.pending.lookup k = b.pending.lookup k := by
  induction qs generalizing b with
  | nil => rfl
  | cons q rest ih =>
    have hkq : k ≠ q := fun he => hk (he ▸ List.mem_cons_self q rest)
    have hkr : k ∉ rest := fun hm => hk (List.mem_cons_of_mem q hm)
    by_cases hf : q ∈ b.failing
    · simp [purgeLoop, brokerPurge, hf, ih _ hkr]
    · simp [purgeLoop, brokerPurge, hf, ih _ hkr, lookup_setPending_ne b.pending q k 0 hkq]

/-- Independence of the per-queue purges: over a duplicate-free queue list the
emitted result entries are exactly the per-queue outcomes computed against the
initial broker state. -/
theorem purgeLoop_entries (qs : List String) (b : Broker) (hnd : qs.Nodup) :
    (purgeLoop b qs).1 = qs.map (purgeSpecEntry b) := by
  induction qs generalizing b with
  | nil => rfl
  | cons q rest ih =>
    obtain ⟨hq, hrest⟩ := List.nodup_cons.mp hnd
    by_cases hf : q ∈ b.failing
    · simp [purgeLoop, brokerPurge, hf, ih b hrest, purgeSpecEntry]
    · have hcong : ∀ x ∈ rest, purgeSpecEntry
          { pending := setPending b.pending q 0, failing := b.failing } x =
            purgeSpecEntry b x := by
        intro x hx
        have hxq : x ≠ q := fun he => hq (he ▸ hx)
        simp [purgeSpecEntry, lookup_setPending_ne b.pending q x 0 hxq]
      simp [purgeLoop, brokerPurge, hf, ih _ hrest, purgeSpecEntry,
        List.map_congr_left hcong]

/-- The accumulated total is the sum of the successful per-queue purge counts,
each computed against the initial broker state. -/
theorem purgeLoop_total (qs : List String) (b : Broker) (hnd : qs.Nodup) :
    (purgeLoop b qs).2.1 =
      (qs.map fun q =>
        if b.failing.contains q then 0 else (b.pending.lookup q).getD 0).sum := by
  induction qs generalizing b with
  | nil => rfl
  | cons q rest ih =>
    obtain ⟨hq, hrest⟩ := List.nodup_cons.mp hnd
    by_cases hf : q ∈ b.failing
    · simp [purgeLoop, brokerPurge, hf, ih b hrest]
    · simp [purgeLoop, brokerPurge, hf, ih _ hrest]
      refine congrArg List.sum (List.map_congr_left ?_)
      intro x hx
      have hxq : x ≠ q := fun he => hq (he ▸ hx)
      simp [lookup_setPending_ne b.pending q x 0 hxq]

/-- After purging the head queue, its pending count reads back as empty at
the end of the loop over the remaining (distinct) queues. -/
theorem purgeLoop_drained_head (b : Broker) (q : String) (rest : List String)
    (hq : q ∉ rest) (hf : q ∉ b.failing) :
    ((purgeLoop b (q :: rest)).2.2.pending.lookup q).getD 0 = 0 := by
  have hnm := purgeLoop_lookup_not_mem rest
    { pending := setPending b.pending q 0, failing := b.failing } q hq
  simp [purgeLoop, brokerPurge, hf, hnm, lookup_setPending_self_getD]

/-- After the loop, every successfully purged queue reads back as empty. -/
theorem purgeLoop_drained (qs : List String) (b : Broker) (hnd : qs.Nodup) :
    ∀ q ∈ qs, b.failing.contains q = false →
      ((purgeLoop b qs).2.2.pending.lookup q).getD 0 = 0 := by
  induction qs generalizing b with
  | nil =>
    intro q hq0
    exact absurd hq0 (List.not_mem_nil q)
  | cons q rest ih =>
    intro x hx hxf
    obtain ⟨hq, hrest⟩ := List.nodup_cons.mp hnd
    have hxm : x ∉ b.failing := by simpa using hxf
    by_cases hf : q ∈ b.failing
    · rcases List.mem_cons.mp hx with he | hm
      · rw [he] at hxm
        exact absurd hf hxm
      · simpa [purgeLoop, brokerPurge, hf] using ih b hrest x hm hxf
    · rcases List.mem_cons.mp hx with he | hm
      · rw [he]
        exact purgeLoop_drained_head b q rest hq hf
      · simpa [purgeLoop, brokerPurge, hf] using
          ih { pending := setPending b.pending q 0, failing := b.failing } hrest x hm hxf

/-- C3: over N distinct configured queues, `purge_all_queues` returns exactly
N per-queue results, each queue's entry depending only on the initial broker
state (independence: a failure purging one queue is recorded in that queue's
own entry and leaves every other queue's outcome unchanged); the reported
total equals the sum of the successful per-queue purge counts; and a second
call finds every successfully purged queue already empty and reports 0 for it
rather than an error. -/
theorem purge_all_queues_spec (b : Broker) (qs : List String) (hnd : qs.Nodup) :
    (purge_all_queues b qs).1.queues.length = qs.length ∧
    (purge_all_queues b qs).1.queues = qs.map (purgeSpecEntry b) ∧
    (purge_all_queues b qs).1.total_purged =
      ((purge_all_queues b qs).1.queues.map fun e =>
        if e.error.isNone then e.purged_tasks else 0).sum ∧
    (∀ q ∈ qs, b.failing.contains q = false →
      { queue := q, purged_tasks := 0, error := none } ∈
        (purge_all_queues (purge_all_queues b qs).2 qs).1.queues) := by
  have he := purgeLoop_entries qs b hnd
  have ht := purgeLoop_total qs b hnd
  refine ⟨?_, ?_, ?_, ?_⟩
  · simp [purge_all_queues, he]
  · simpa [purge_all_queues] using he
  · simp [purge_all_queues, he, ht]
    refine congrArg List.sum (List.map_congr_left ?_)
    intro x hx
    by_cases hf : x ∈ b.failing
    · simp [purgeSpecEntry, hf]
    · simp [purgeSpecEntry, hf]
  · intro q hq hqf
    have hfail2 : (purgeLoop b qs).2.2.failing = b.failing := purgeLoop_failing qs b
    have he2 := purgeLoop_entries qs ((purgeLoop b qs).2.2) hnd
    have hdr := purgeLoop_drained qs b hnd q hq hqf
    have hqm : q ∉ (purgeLoop b qs).2.2.failing := by
      rw [hfail2]
      simpa using hqf
    have hentry : purgeSpecEntry ((purgeLoop b qs).2.2) q =
        { queue := q, purged_tasks := 0, error := none } := by
      simp [purgeSpecEntry, hqm, hdr]
    have hq2 : (purge_all_queues (purge_all_queues b qs).2 qs).1.queues =
        qs.map (purgeSpecEntry ((purgeLoop b qs).2.2)) := by
      simpa [purge_all_queues] using he2
    rw [hq2, ← hentry]
    exact List.mem_map_of_mem _ hq

/-- C3 witness: two configured queues of which "backup" fails; the per-queue
results are the independent per-queue outcomes. -/
theorem purge_all_queues_spec_witness :
    (purge_all_queues { pending := [("default", 3), ("backup", 2)], failing := ["backup"] }
        ["default", "backup"]).1.queues =
      ["default", "backup"].map
        (purgeSpecEntry { pending := [("default", 3), ("backup", 2)], failing := ["backup"] }) :=
  (purge_all_queues_spec { pending := [("default", 3), ("backup", 2)], failing := ["backup"] }
      ["default", "backup"] (by decide)).2.1

/-- C6 counterexample: with only the persisted schedule key present, the
dedicated `beat_status` endpoint reports Beat running, while the beat
component of the overall `celery_status` reports it not running, although
the lock-or-schedule presence condition holds — so beat status is not
reported by the lock-or-schedule rule everywhere. -/
theorem beat_status_everywhere_cex :
    Except.map (fun s => s.beat_running)
        (beat_status { keys := ["cockpit-ng:beat::schedule"], reachable := true }) =
      Except.ok true ∧
    (celery_status { keys := ["cockpit-ng:beat::schedule"], reachable := true }
        [] []).beat_running = false ∧
    ((["cockpit-ng:beat::schedule"] : List String).contains beatLockKey ||
      (["cockpit-ng:beat::schedule"] : List String).contains beatScheduleKey) = true := by
  refine ⟨rfl, rfl, rfl⟩

/-- C6 amended: the dedicated `beat_status` endpoint reports Beat running iff
the lock key or the persisted schedule key is present, while the beat
component of `celery_status` reports it running iff the lock key alone is
present (false when the store is unreachable). -/
theorem beat_reporting (r : RedisState) (stats : List (String × Nat))
    (active : List (String × List String)) :
    (r.reachable = true →
      Except.map (fun s => s.beat_running) (beat_status r) =
        Except.ok (r.keys.contains beatLockKey || r.keys.contains beatScheduleKey)) ∧
    (celery_status r stats active).beat_running =
      (r.reachable && r.keys.contains beatLockKey) := by
  constructor
  · intro hr
    simp [beat_status, redisExists, hr, Except.map]
  · cases hr : r.reachable
    · simp [celery_status, redisExists, hr]
    · simp [celery_status, redisExists, hr]

/-- C6 amended witness: with only the lock key present and the store
reachable, `beat_status` reports running. -/
theorem beat_reporting_witness :
    Except.map (fun s => s.beat_running)
        (beat_status { keys := ["cockpit-ng:beat::lock"], reachable := true }) =
      Except.ok ((["cockpit-ng:beat::lock"] : List String).contains beatLockKey ||
        (["cockpit-ng:beat::lock"] : List String).contains beatScheduleKey) :=
  (beat_reporting { keys := ["cockpit-ng:beat::lock"], reachable := true } [] []).1 rfl

/-- C7: `celery_status` always returns the success envelope; its
`redis_connected` flag is true exactly when the connectivity probe succeeds,
and a raising probe degrades to `redis_connected = false` instead of
propagating an exception to the caller. -/
theorem celery_status_fail_closed (r : RedisState) (stats : List (String × Nat))
    (active : List (String × List String)) :
    (celery_status r stats active).success = true ∧
    ((celery_status r stats active).redis_connected = true ↔
      redisPing r = Except.ok true) ∧
    ((redisPing r).isOk = false → (celery_status r stats active).redis_connected = false) := by
  refine ⟨rfl, ?_, ?_⟩
  · cases hr : r.reachable
    · simp [celery_status, redisPing, hr]
    · simp [celery_status, redisPing, hr]
  · intro hp
    cases hr : r.reachable
    · simp [celery_status, redisPing, hr]
    · simp [redisPing, hr, Except.isOk, Except.toBool] at hp

/-- C7 witness: an unreachable store yields `redis_connected = false`. -/
theorem celery_status_fail_closed_witness :
    (celery_status { keys := [], reachable := false } [] []).redis_connected = false :=
  (celery_status_fail_closed { keys := [], reachable := false } [] []).2.2 rfl

/-- C8: the configuration snapshot carries only the truthiness of the broker
password: two snapshots differing only in the (non-empty) password value are
identical, and `has_password` is true exactly when the configured password is
non-empty. -/
theorem get_celery_config_no_secret (e : CeleryEnv) (p1 p2 : String)
    (h1 : p1 ≠ "") (h2 : p2 ≠ "") :
    get_celery_config { e with redis_password := p1 } =
      get_celery_config { e with redis_password := p2 } ∧
    ((get_celery_config e).redis.has_password = true ↔ e.redis_password ≠ "") := by
  constructor
  · have hb1 : (p1 != "") = true := by simpa using h1
    have hb2 : (p2 != "") = true := by simpa using h2
    simp [get_celery_config, hb1, hb2]
  · simp [get_celery_config]

/-- C8 witness: two snapshots differing only in the password value agree. -/
theorem get_celery_config_no_secret_witness :
    get_celery_config
        { redis_host := "localhost", redis_port := "6379", redis_password := "a",
          celery_max_workers := 4, worker_prefetch_multiplier := 1,
          worker_max_tasks_per_child := 100, task_time_limit := 300,
          task_serializer := "json", task_track_started := true,
          result_expires := 3600, result_serializer := "json",
          beat_scheduler := "redbeat", beat_schedule_count := 1,
          timezone := "UTC", enable_utc := true } =
      get_celery_config
        { redis_host := "localhost", redis_port := "6379", redis_password := "bb",
          celery_max_workers := 4, worker_prefetch_multiplier := 1,
          worker_max_tasks_per_child := 100, task_time_limit := 300,
          task_serializer := "json", task_track_started := true,
          result_expires := 3600, result_serializer := "json",
          beat_scheduler := "redbeat", beat_schedule_count := 1,
          timezone := "UTC", enable_utc := true } :=
  (get_celery_config_no_secret
      { redis_host := "localhost", redis_port := "6379", redis_password := "",
        celery_max_workers := 4, worker_prefetch_multiplier := 1,
        worker_max_tasks_per_child := 100, task_time_limit := 300,
        task_serializer := "json", task_track_started := true,
        result_expires := 3600, result_serializer := "json",
        beat_scheduler := "redbeat", beat_schedule_count := 1,
        timezone := "UTC", enable_utc := true } "a" "bb"
      (by decide) (by decide)).1

/-- C9: the cleanup-stats read leaves the result store unchanged, repeated
calls on the same store agree, and the returned record carries
`cutoff_time = now - retention`, the retention value itself, and the count of
result keys currently present in the store. -/
theorem get_cleanup_stats_pure_read (cs : List (String × Nat)) (now : Int)
    (store : List String) :
    (get_cleanup_stats cs now store).2 = store ∧
    (get_cleanup_stats cs now ((get_cleanup_stats cs now store).2)).1 =
      (get_cleanup_stats cs now store).1 ∧
    (get_cleanup_stats cs now store).1.cutoff_time =
      now - 3600 * (((cs.lookup "cleanup_age_hours").getD 24 : Nat) : Int) ∧
    (get_cleanup_stats cs now store).1.cleanup_age_hours =
      (cs.lookup "cleanup_age_hours").getD 24 ∧
    (get_cleanup_stats cs now store).1.total_result_keys =
      (store.filter fun k => resultKeyPattern.isPrefixOf k).length ∧
    (get_cleanup_stats cs now store).1.success = true :=
  ⟨rfl, rfl, rfl, rfl, rfl, rfl⟩

/-- C4: a queue-list update omitting any built-in queue is rejected with the
HTTP 400 detail naming exactly the missing built-ins and leaves the stored
settings unchanged; an update containing all four built-ins is not rejected
on this ground; consequently every settings update preserves the presence of
the four built-in queues in the stored settings. -/
theorem update_celery_settings_builtins (cur : CelerySettings) (req : CelerySettingsRequest)
    (hcur : ∀ b ∈ builtinQueueNames, (cur.queues.map CeleryQueue.name).contains b = true) :
    (∀ b ∈ builtinQueueNames,
      ((update_celery_settings cur req).2.queues.map CeleryQueue.name).contains b = true) ∧
    (∀ qs, req.queues = some qs → missingBuiltins qs ≠ [] →
      update_celery_settings cur req =
        (Except.error (mkMissingDetail (missingBuiltins qs)), cur)) ∧
    (∀ qs, req.queues = some qs → missingBuiltins qs = [] →
      (update_celery_settings cur req).1 = Except.ok (applyRequest cur req)) ∧
    (∀ qs b, b ∈ missingBuiltins qs ↔
      b ∈ builtinQueueNames ∧ (qs.map CeleryQueue.name).contains b = false) := by
  refine ⟨?_, ?_, ?_, ?_⟩
  · intro b hb
    rcases hreq : req.queues with _ | qs
    · simpa [update_celery_settings, hreq, applyRequest] using hcur b hb
    · by_cases hm : missingBuiltins qs = []
      · have hbq : (qs.map CeleryQueue.name).contains b = true := by
          by_contra hc
          have hnm : b ∉ qs.map CeleryQueue.name := by
            simpa using hc
          have hmem : b ∈ missingBuiltins qs := by
            simp [missingBuiltins, List.mem_filter, hb]
            intro x hx hxe
            exact hnm (hxe ▸ List.mem_map_of_mem CeleryQueue.name hx)
          rw [hm] at hmem
          exact absurd hmem (List.not_mem_nil b)
        have hnames : (qs.map normalizeQueue).map CeleryQueue.name =
            qs.map CeleryQueue.name := by
          rw [List.map_map]
          refine List.map_congr_left ?_
          intro x hx
          show (normalizeQueue x).name = x.name
          unfold normalizeQueue
          split <;> rfl
        simpa [update_celery_settings, hreq, hm, applyRequest, hnames] using hbq
      · simpa [update_celery_settings, hreq, hm] using hcur b hb
  · intro qs hreq hne
    simp [update_celery_settings, hreq, hne]
  · intro qs hreq hmeq
    simp [update_celery_settings, hreq, hmeq]
  · intro qs b
    simp [missingBuiltins, List.mem_filter]

/-- C4 witness: with all four built-ins stored, an update adding a custom
queue keeps "default" among the stored queue names. -/
theorem update_celery_settings_builtins_witness :
    ((update_celery_settings
        { max_workers := 4, cleanup_enabled := true, cleanup_interval_hours := 6,
          cleanup_age_hours := 24, result_expires_hours := 1,
          queues := [{ name := "default", description := "", built_in := true },
                     { name := "backup", description := "", built_in := true },
                     { name := "network", description := "", built_in := true },
                     { name := "heavy", description := "", built_in := true }] }
        { max_workers := none, cleanup_enabled := none, cleanup_interval_hours := none,
          cleanup_age_hours := none, result_expires_hours := none,
          queues := some
            [{ name := "default", description := "", built_in := true },
             { name := "backup", description := "", built_in := true },
             { name := "network", description := "", built_in := true },
             { name := "heavy", description := "", built_in := true },
             { name := "custom1", description := "", built_in := false }] }).2.queues.map
      CeleryQueue.name).contains "default" = true :=
  (update_celery_settings_builtins
      { max_workers := 4, cleanup_enabled := true, cleanup_interval_hours := 6,
        cleanup_age_hours := 24, result_expires_hours := 1,
        queues := [{ name := "default", description := "", built_in := true },
                   { name := "backup", description := "", built_in := true },
                   { name := "network", description := "", built_in := true },
                   { name := "heavy", description := "", built_in := true }] }
      { max_workers := none, cleanup_enabled := none, cleanup_interval_hours := none,
        cleanup_age_hours := none, result_expires_hours := none,
        queues := some
          [{ name := "default", description := "", built_in := true },
           { name := "backup", description := "", built_in := true },
           { name := "network", description := "", built_in := true },
           { name := "heavy", description := "", built_in := true },
           { name := "custom1", description := "", built_in := false }] }
      (by decide)).1 "default" (by decide)

end AppModel
